import Mathlib

/-!
Shallow embedding of the Shift Window & Attendance Classification Engine of
`zkteco-f18-attendance-bridge` (`src/core/processing_utils.py`), together with
proofs of the specification's claims about it.

Time model: device-local wall-clock arithmetic in seconds.
* A time-of-day (`datetime.time` in the source) is a `Nat` counting seconds
  since local midnight; the source guarantees it is below 86400.
* A calendar date (`datetime.date`) is an `Int` day index.
* A local datetime (`datetime.datetime` in device-local time) is an `Int`
  counting seconds since the epoch of day 0; `datetime.combine` is
  `combine d t = d * 86400 + t`.
The source localizes window bounds and punches into one device timezone and
compares them as absolute instants; a fixed-offset localization is an
order-embedding, so comparisons of localized instants coincide with
comparisons of the local datetimes modelled here.  Python string formatting
(`strftime`, f-strings) is presentation only; the human-readable reason
strings of the source are modelled as inductive tags carrying the same
numeric payloads.
-/

/-- Hour component of a time-of-day in seconds (`time.hour` in Python). -/
def hourOf (t : Nat) : Nat := t / 3600

/-- Device-local time-of-day of a local instant (`datetime.astimezone(tz).time()`). -/
def timeOfDay (x : Int) : Nat := (x % 86400).toNat

/-- `datetime.combine(d, t)` for day index `d` and time-of-day `t` (seconds). -/
def combine (d : Int) (t : Nat) : Int := d * 86400 + t

/-- The lower bound of the shift window, from `is_punch_in_shift_window`
(src/core/processing_utils.py line 157):
`window_start_local = datetime.combine(shift_date, work_start) - timedelta(hours=buffer_hours)`. -/
def windowStart (shift_date : Int) (work_start : Nat) (buffer_hours : Nat) : Int :=
  combine shift_date work_start - buffer_hours * 3600

/-- The upper bound of the shift window, from `is_punch_in_shift_window`
(lines 159-165): overnight shifts end on `shift_date + 1`, day shifts on
`shift_date`, plus the buffer. -/
def windowEnd (shift_date : Int) (work_end : Nat) (overnight_shift : Bool)
    (buffer_hours : Nat) : Int :=
  if overnight_shift then
    combine (shift_date + 1) work_end + buffer_hours * 3600
  else
    combine shift_date work_end + buffer_hours * 3600

/-- `is_punch_in_shift_window` (lines 127-171): the punch is in-window iff it
lies between the two bounds, both ends inclusive
(`window_start <= punch_datetime <= window_end`). -/
def is_punch_in_shift_window (punch_datetime : Int) (shift_date : Int)
    (work_start work_end : Nat) (overnight_shift : Bool)
    (buffer_hours : Nat) : Bool :=
  decide (windowStart shift_date work_start buffer_hours ≤ punch_datetime) &&
  decide (punch_datetime ≤ windowEnd shift_date work_end overnight_shift buffer_hours)

/-- Tags for the human-readable reason/notes strings produced by the engine.
The source builds these with f-strings; each tag carries the same numeric
payload the corresponding message interpolates. -/
inductive Reason where
  | missingBoth : Reason
  | missingClockIn : Reason
  | missingClockOut : Reason
  | lateArrival (clock_in_time : Nat) (minutes_late : Nat) : Reason
  | leftEarly (clock_out_time : Nat) (minutes_early : Nat) : Reason
  | noPunchesInWindow (outlier_count : Nat) : Reason
  | outliersRecorded (outlier_count : Nat) : Reason
deriving DecidableEq, Repr

/-- The 5-tuple returned by `classify_attendance`
`(is_outlier, is_late_arrival, is_early_departure, is_incomplete, reason)`. -/
structure Classification where
  is_outlier : Bool
  is_late_arrival : Bool
  is_early_departure : Bool
  is_incomplete : Bool
  reasons : List Reason
deriving DecidableEq, Repr

/-- `classify_attendance` (src/core/processing_utils.py lines 39-124).  The
clock-in and clock-out arguments are the (optional) punch instants in
device-local seconds; `work_start`/`work_end` are local times-of-day in
seconds.  `is_outlier` is hard-coded to `False` in the source (line 65):
outliers are pre-filtered into a separate table before this is called. -/
def classify_attendance (clock_in clock_out : Option Int)
    (work_start work_end : Nat) (overnight_shift : Bool) : Classification :=
  match clock_in, clock_out with
  | none, none => ⟨false, false, false, true, [.missingBoth]⟩
  | none, some _ => ⟨false, false, false, true, [.missingClockIn]⟩
  | some _, none => ⟨false, false, false, true, [.missingClockOut]⟩
  | some ci, some co =>
    let clock_in_time := timeOfDay ci
    let late := decide (work_start < clock_in_time)
    let lateReasons : List Reason :=
      if work_start < clock_in_time then
        [.lateArrival clock_in_time ((clock_in_time - work_start) / 60)]
      else []
    let clock_out_time := timeOfDay co
    let early : Bool :=
      if overnight_shift && decide (hourOf work_end < 12) then
        decide (hourOf clock_out_time < 12) && decide (clock_out_time < work_end)
      else
        decide (clock_out_time < work_end)
    let earlyReasons : List Reason :=
      if early then [.leftEarly clock_out_time ((work_end - clock_out_time) / 60)]
      else []
    ⟨false, late, early, false, lateReasons ++ earlyReasons⟩

/-- Tags for the outlier explanation strings of `determine_outlier_reason`;
each carries the punch's local time-of-day the message interpolates. -/
inductive OutlierReason where
  | beforeOvernightWindow (punch_time : Nat) : OutlierReason
  | afterOvernightWindow (punch_time : Nat) : OutlierReason
  | dayPunchDuringOvernight (punch_time : Nat) : OutlierReason
  | outsideWindow (punch_time : Nat) : OutlierReason
  | beforeDayShift (punch_time : Nat) : OutlierReason
  | afterDayShift (punch_time : Nat) : OutlierReason
deriving DecidableEq, Repr

/-- `determine_outlier_reason` (lines 174-233), acting on the punch's
device-local time-of-day.  `(datetime.combine(today, t) ± buffer).time()`
wraps around midnight, hence the `% 86400`. -/
def determine_outlier_reason (punch_time : Nat) (work_start work_end : Nat)
    (overnight_shift : Bool) (buffer_hours : Nat) : OutlierReason :=
  if overnight_shift then
    let earliest_acceptable := ((work_start - buffer_hours * 3600 : Int) % 86400).toNat
    let next_day_latest := (work_end + buffer_hours * 3600) % 86400
    if punch_time < earliest_acceptable ∧ 12 ≤ hourOf punch_time then
      .beforeOvernightWindow punch_time
    else if next_day_latest < punch_time ∧ hourOf punch_time < 12 then
      .afterOvernightWindow punch_time
    else if 6 ≤ hourOf punch_time ∧ hourOf punch_time ≤ 17 then
      .dayPunchDuringOvernight punch_time
    else
      .outsideWindow punch_time
  else
    let earliest_acceptable := ((work_start - buffer_hours * 3600 : Int) % 86400).toNat
    if punch_time < earliest_acceptable then .beforeDayShift punch_time
    else .afterDayShift punch_time

/-- A raw punch as the engine sees it: the owning device and the timestamp
(in device-local seconds; `RawAttendance.timestamp`). -/
structure Punch where
  device_id : Nat
  timestamp : Int
deriving DecidableEq, Repr

/-- A row of the `OutlierPunch` table (src/core/models.py lines 231-261);
`notes` and `created_at` are untouched by the engine and omitted.
Uniqueness key: `(device_id, user_id, punch_datetime)`. -/
structure OutlierRow where
  device_id : Nat
  user_id : Nat
  punch_datetime : Int
  reason : OutlierReason
  associated_shift_date : Option Int
  reviewed : Bool
deriving DecidableEq, Repr

/-- The `OutlierPunch.objects.update_or_create` call of
`process_attendance_for_date` (lines 332-341): rows are looked up by the
natural key; on a hit every field in `defaults` -- `reason`,
`associated_shift_date` and `reviewed = False` -- is written onto the
existing row, otherwise a fresh row is inserted with those defaults. -/
def upsertOutlier (store : List OutlierRow) (device_id user_id : Nat)
    (punch_datetime : Int) (reason : OutlierReason) (shift_date : Int) :
    List OutlierRow :=
  if store.any fun r =>
      r.device_id == device_id && r.user_id == user_id &&
      r.punch_datetime == punch_datetime then
    store.map fun r =>
      if r.device_id == device_id && r.user_id == user_id &&
          r.punch_datetime == punch_datetime then
        { r with reason := reason, associated_shift_date := some shift_date,
                 reviewed := false }
      else r
  else
    store ++ [⟨device_id, user_id, punch_datetime, reason, some shift_date, false⟩]

/-- A row of the `ProcessedAttendance` table as written by
`process_attendance_for_date`.  The always-empty legacy string
`outlier_reason` is omitted; `date` is the legacy duplicate of
`shift_date`; `notes` carries the tags of the interpolated strings. -/
structure ProcessedAttendance where
  device_id : Nat
  user_id : Nat
  shift_date : Int
  shift_start_time : Nat
  shift_end_time : Nat
  earliest_punch : Option Int
  latest_punch : Option Int
  punch_count : Nat
  is_incomplete : Bool
  is_late_arrival : Bool
  is_early_departure : Bool
  notes : List Reason
  date : Int
  clock_in : Option Int
  clock_out : Option Int
  is_outlier : Bool
deriving DecidableEq, Repr

/-- `process_attendance_for_date` (lines 236-426), parameterised by the data
the source obtains from the database: `all_punches` is the result of the
range query of lines 301-310 (ordered by timestamp) and `outlier_store` is
the current `OutlierPunch` table.  Returns the upserted
`ProcessedAttendance` row (`none` when the source returns `None` at line
314) together with the updated outlier table.  The configuration
(`work_start`, `work_end`, `overnight_shift`, `buffer_hours`) mirrors the
settings read at lines 262-265. -/
def process_attendance_for_date (user_id : Nat) (attendance_date : Int)
    (work_start work_end : Nat) (overnight_shift : Bool) (buffer_hours : Nat)
    (device_id : Nat) (all_punches : List Punch)
    (outlier_store : List OutlierRow) :
    Option ProcessedAttendance × List OutlierRow :=
  if all_punches.isEmpty then
    (none, outlier_store)
  else
    let in_window_punches := all_punches.filter fun p =>
      is_punch_in_shift_window p.timestamp attendance_date work_start work_end
        overnight_shift buffer_hours
    let out_of_window_punches := all_punches.filter fun p =>
      ! is_punch_in_shift_window p.timestamp attendance_date work_start work_end
        overnight_shift buffer_hours
    let store := out_of_window_punches.foldl
      (fun s p => upsertOutlier s p.device_id user_id p.timestamp
        (determine_outlier_reason (timeOfDay p.timestamp) work_start work_end
          overnight_shift buffer_hours)
        attendance_date)
      outlier_store
    if in_window_punches.isEmpty then
      (some { device_id := device_id, user_id := user_id,
              shift_date := attendance_date,
              shift_start_time := work_start, shift_end_time := work_end,
              earliest_punch := none, latest_punch := none, punch_count := 0,
              is_incomplete := true, is_late_arrival := false,
              is_early_departure := false,
              notes := [.noPunchesInWindow out_of_window_punches.length],
              date := attendance_date, clock_in := none, clock_out := none,
              is_outlier := false },
       store)
    else
      let earliest_punch := (in_window_punches.head?.getD ⟨device_id, 0⟩).timestamp
      let latest_punch := (in_window_punches.getLast?.getD ⟨device_id, 0⟩).timestamp
      let punch_count := in_window_punches.length
      let clock_in := earliest_punch
      let clock_out := if 1 < in_window_punches.length then some latest_punch else none
      let c := classify_attendance (some clock_in) clock_out work_start work_end
        overnight_shift
      let notes := c.reasons ++
        (if out_of_window_punches.isEmpty then []
         else [.outliersRecorded out_of_window_punches.length])
      (some { device_id := device_id, user_id := user_id,
              shift_date := attendance_date,
              shift_start_time := work_start, shift_end_time := work_end,
              earliest_punch := some clock_in, latest_punch := clock_out,
              punch_count := punch_count,
              is_incomplete := c.is_incomplete,
              is_late_arrival := c.is_late_arrival,
              is_early_departure := c.is_early_departure,
              notes := notes,
              date := attendance_date, clock_in := some clock_in,
              clock_out := clock_out, is_outlier := false },
       store)

/-- Shift-date assignment of the overnight branch of
`process_all_unprocessed_attendance` (lines 490-503): a punch whose
device-local time-of-day is at or after `work_start` starts a shift on its
own calendar date, otherwise it is the tail of the previous date's shift. -/
def shift_date_for_punch (punch_date : Int) (punch_time : Nat)
    (work_start : Nat) : Int :=
  if work_start ≤ punch_time then punch_date else punch_date - 1

/-- Outcome of one unit of work `(user, device, date)` inside the batch
loop of `process_all_unprocessed_attendance` (lines 470-525 and 536-556):
`ok` -- `process_attendance_for_date` returned a record (whose legacy
`is_outlier` flag is carried along); `noRecord` -- it returned `None`;
`err` -- an exception (`Device.DoesNotExist` or any other) was raised while
handling the unit. -/
inductive UnitOutcome where
  | ok (is_outlier : Bool) : UnitOutcome
  | noRecord : UnitOutcome
  | err : UnitOutcome
deriving DecidableEq, Repr

/-- The `results` statistics dictionary of
`process_all_unprocessed_attendance` (lines 445-450). -/
structure BatchResults where
  total_records : Nat
  processed : Nat
  failed : Nat
  outliers : Nat
deriving DecidableEq, Repr

/-- One iteration of the batch loop: the `try` body increments `processed`
(and `outliers` when the record's flag is set) and then `total_records`;
each `except` arm increments `failed` and falls through to the next unit. -/
def processUnit (r : BatchResults) : UnitOutcome → BatchResults
  | .ok o =>
    { r with processed := r.processed + 1,
             outliers := r.outliers + (if o then 1 else 0),
             total_records := r.total_records + 1 }
  | .noRecord => { r with total_records := r.total_records + 1 }
  | .err => { r with failed := r.failed + 1 }

/-- `process_all_unprocessed_attendance` (lines 429-561), parameterised by
the outcome of each discovered unit of work: the loop folds the statistics
over the units, starting from all-zero counters. -/
def process_all_unprocessed_attendance (units : List UnitOutcome) :
    BatchResults :=
  units.foldl processUnit ⟨0, 0, 0, 0⟩

/-- Number of units whose processing call returned (record or `None`):
these are the ones that reach `results['total_records'] += 1`. -/
def countReturned : List UnitOutcome → Nat
  | [] => 0
  | .ok _ :: us => countReturned us + 1
  | .noRecord :: us => countReturned us + 1
  | .err :: us => countReturned us

/-- Number of units for which a record was produced. -/
def countProcessed : List UnitOutcome → Nat
  | [] => 0
  | .ok _ :: us => countProcessed us + 1
  | .noRecord :: us => countProcessed us
  | .err :: us => countProcessed us

/-- Number of units that raised. -/
def countFailed : List UnitOutcome → Nat
  | [] => 0
  | .ok _ :: us => countFailed us
  | .noRecord :: us => countFailed us
  | .err :: us => countFailed us + 1

/-- Number of units whose record carried `is_outlier = True`. -/
def countOutliers : List UnitOutcome → Nat
  | [] => 0
  | .ok true :: us => countOutliers us + 1
  | .ok false :: us => countOutliers us
  | .noRecord :: us => countOutliers us
  | .err :: us => countOutliers us

/-- Lower bound of the candidate-punch range query of
`process_attendance_for_date` (lines 283-298): for overnight shifts the
afternoon of the attendance date
(`work_start - (outlier_early_in + 2) hours`, line 286), for day shifts
`work_start - (buffer_hours + 2) hours` (line 294). -/
def queryStart (attendance_date : Int) (work_start : Nat)
    (overnight_shift : Bool) (outlier_early_in buffer_hours : Nat) : Int :=
  if overnight_shift then
    combine attendance_date work_start - (outlier_early_in + 2) * 3600
  else
    combine attendance_date work_start - (buffer_hours + 2) * 3600

/-- Upper bound of the candidate-punch range query (lines 290 and 297):
`work_end + (buffer_hours + 2) hours`, on the next day for overnight
shifts. -/
def queryEnd (attendance_date : Int) (work_end : Nat)
    (overnight_shift : Bool) (buffer_hours : Nat) : Int :=
  if overnight_shift then
    combine (attendance_date + 1) work_end + (buffer_hours + 2) * 3600
  else
    combine attendance_date work_end + (buffer_hours + 2) * 3600

theorem filter_not_of_filter_nil {α : Type} (p : α → Bool) (l : List α)
    (h : l.filter p = []) : l.filter (fun a => ! p a) = l := by
  induction l with
  | nil => rfl
  | cons a l ih =>
    cases hp : p a with
    | true => simp [List.filter_cons, hp] at h
    | false =>
      simp only [List.filter_cons, hp] at h
      simp [List.filter_cons, hp, ih h]

theorem foldl_processUnit_eq (units : List UnitOutcome) (r : BatchResults) :
    units.foldl processUnit r =
      ⟨r.total_records + countReturned units, r.processed + countProcessed units,
       r.failed + countFailed units, r.outliers + countOutliers units⟩ := by
  induction units generalizing r with
  | nil => rfl
  | cons u us ih =>
    cases u with
    | ok o =>
      rw [List.foldl_cons, ih]
      cases o <;>
        simp [processUnit, countReturned, countProcessed, countFailed, countOutliers,
          BatchResults.mk.injEq] <;>
        omega
    | noRecord =>
      rw [List.foldl_cons, ih]
      simp [processUnit, countReturned, countProcessed, countFailed, countOutliers,
        BatchResults.mk.injEq]
      omega
    | err =>
      rw [List.foldl_cons, ih]
      simp [processUnit, countReturned, countProcessed, countFailed, countOutliers,
        BatchResults.mk.injEq]
      omega

theorem process_all_eq_counts (units : List UnitOutcome) :
    process_all_unprocessed_attendance units =
      ⟨countReturned units, countProcessed units, countFailed units,
       countOutliers units⟩ := by
  rw [process_all_unprocessed_attendance, foldl_processUnit_eq]
  simp

theorem countReturned_append (l1 l2 : List UnitOutcome) :
    countReturned (l1 ++ l2) = countReturned l1 + countReturned l2 := by
  induction l1 with
  | nil => simp [countReturned]
  | cons u us ih => cases u <;> simp [countReturned, ih, Nat.add_right_comm]

theorem countProcessed_append (l1 l2 : List UnitOutcome) :
    countProcessed (l1 ++ l2) = countProcessed l1 + countProcessed l2 := by
  induction l1 with
  | nil => simp [countProcessed]
  | cons u us ih => cases u <;> simp [countProcessed, ih, Nat.add_right_comm]

theorem countFailed_append (l1 l2 : List UnitOutcome) :
    countFailed (l1 ++ l2) = countFailed l1 + countFailed l2 := by
  induction l1 with
  | nil => simp [countFailed]
  | cons u us ih => cases u <;> simp [countFailed, ih, Nat.add_right_comm]

theorem countOutliers_append (l1 l2 : List UnitOutcome) :
    countOutliers (l1 ++ l2) = countOutliers l1 + countOutliers l2 := by
  induction l1 with
  | nil => simp [countOutliers]
  | cons u us ih =>
    cases u with
    | ok o => cases o <;> simp [countOutliers, ih, Nat.add_right_comm]
    | noRecord => simp [countOutliers, ih]
    | err => simp [countOutliers, ih]

/-- C1 -- re-running the engine over an unchanged punch set resets a
reviewed outlier.  With the day configuration `08:00-18:00`, buffer 2, a
punch at local `05:00` of day 0 lies inside the candidate query window
`[04:00, 22:00]` (so the range query of lines 301-310 returns it and the
re-run does not bail out at line 314) yet outside the shift window
`[06:00, 20:00]`, so it is re-classified as an outlier; the upsert then
overwrites the stored row's `reviewed = true` with `false` (the
`update_or_create` call passes `reviewed: False` inside `defaults`, so the
update path writes it), contradicting the claimed preservation. -/
theorem outlier_rerun_resets_reviewed :
    (queryStart 0 28800 false 2 2 ≤ 18000 ∧ (18000 : Int) ≤ queryEnd 0 64800 false 2) ∧
    is_punch_in_shift_window 18000 0 28800 64800 false 2 = false ∧
    (process_attendance_for_date 7 0 28800 64800 false 2 1 [⟨1, 18000⟩]
        [⟨1, 7, 18000, .beforeDayShift 18000, some 0, true⟩]).2 =
      [⟨1, 7, 18000, .beforeDayShift 18000, some 0, false⟩] := by
  decide

/-- C2 -- Window membership uses inclusive bounds on both ends: a punch is
in-window iff `window_start ≤ p ≤ window_end`; for a day shift with
`work_start = 08:00`, `work_end = 18:00` and `buffer_hours = 2`, a punch at
exactly `06:00` local is in-window and a punch at `05:59:59` local is
out-of-window, on every shift date. -/
theorem window_membership_inclusive :
    (∀ (p shift_date : Int) (work_start work_end : Nat) (overnight : Bool)
        (buffer : Nat),
      is_punch_in_shift_window p shift_date work_start work_end overnight buffer = true ↔
        (windowStart shift_date work_start buffer ≤ p ∧
         p ≤ windowEnd shift_date work_end overnight buffer)) ∧
    (∀ D : Int,
      is_punch_in_shift_window (combine D (6 * 3600)) D (8 * 3600) (18 * 3600) false 2 = true) ∧
    (∀ D : Int,
      is_punch_in_shift_window (combine D (5 * 3600 + 59 * 60 + 59)) D (8 * 3600) (18 * 3600)
        false 2 = false) := by
  refine ⟨fun p d ws we ov b => ?_, fun D => ?_, fun D => ?_⟩
  · simp [is_punch_in_shift_window]
  · simp [is_punch_in_shift_window, windowStart, windowEnd, combine]
    omega
  · simp [is_punch_in_shift_window, windowStart, windowEnd, combine]
    omega

/-- C3 -- For `work_start = 20:00`, `work_end = 05:00`, `overnight = true`,
`buffer_hours = 2`, the window for shift date `D` is `[D 18:00, D+1 07:00]`
local; a punch at `D 14:00` is out-of-window and a punch at `D+1 06:30` is
in-window. -/
theorem overnight_window_correct :
    ∀ D : Int,
      windowStart D (20 * 3600) 2 = combine D (18 * 3600) ∧
      windowEnd D (5 * 3600) true 2 = combine (D + 1) (7 * 3600) ∧
      is_punch_in_shift_window (combine D (14 * 3600)) D (20 * 3600) (5 * 3600) true 2 = false ∧
      is_punch_in_shift_window (combine (D + 1) (6 * 3600 + 30 * 60)) D (20 * 3600) (5 * 3600)
        true 2 = true := by
  intro D
  refine ⟨?_, ?_, ?_, ?_⟩
  · simp only [windowStart, combine]; omega
  · simp [windowEnd, combine]; omega
  · simp [is_punch_in_shift_window, windowStart, windowEnd, combine]
    omega
  · simp [is_punch_in_shift_window, windowStart, windowEnd, combine]
    omega

/-- C4 counterexample -- with `overnight = false`, `work_start = 20:00`,
`work_end = 05:00` and `buffer_hours = 2` the computed window has
`window_end < window_start` on shift date 0, refuting the unconditional
invariant `window_start ≤ window_end`. -/
theorem window_order_counterexample :
    windowEnd 0 (5 * 3600) false 2 < windowStart 0 (20 * 3600) 2 := by
  decide

/-- C4 amended -- for every shift date, every `work_start` and `work_end`
below 24h and every buffer, `window_start ≤ window_end` holds exactly when
the shift is overnight or `work_start ≤ work_end + 2 * buffer`; in
particular the invariant holds for every overnight configuration and for
every day configuration with `work_start ≤ work_end`. -/
theorem window_order_characterization (shift_date : Int) (work_start work_end : Nat)
    (overnight : Bool) (buffer : Nat)
    (hws : work_start < 86400) (hwe : work_end < 86400) :
    windowStart shift_date work_start buffer ≤
        windowEnd shift_date work_end overnight buffer ↔
      (overnight = true ∨ work_start ≤ work_end + 2 * (buffer * 3600)) := by
  cases overnight with
  | false =>
    simp [windowStart, windowEnd, combine]
    omega
  | true =>
    simp [windowStart, windowEnd, combine]
    omega

/-- Witness for the amended C4 at a concrete input: the overnight
configuration `20:00-05:00` with buffer 2 satisfies the invariant. -/
theorem window_order_characterization_witness :
    windowStart 0 (20 * 3600) 2 ≤ windowEnd 0 (5 * 3600) true 2 :=
  (window_order_characterization 0 (20 * 3600) (5 * 3600) true 2 (by decide)
    (by decide)).mpr (Or.inl rfl)

/-- C5 -- a shift key with exactly one in-window punch aggregates to
`earliest = that punch`, `latest = none`, `punch_count = 1` and is
classified incomplete, for every configuration and punch position; and
`latest` is the last in-window punch exactly on the branch where the
in-window count exceeds 1. -/
theorem single_in_window_punch_aggregate :
    (∀ (user_id : Nat) (attendance_date : Int) (work_start work_end : Nat)
        (overnight : Bool) (buffer device_id : Nat) (punches : List Punch)
        (store : List OutlierRow) (p : Punch),
      punches.filter (fun q => is_punch_in_shift_window q.timestamp attendance_date
          work_start work_end overnight buffer) = [p] →
      ∃ rec : ProcessedAttendance,
        (process_attendance_for_date user_id attendance_date work_start work_end
            overnight buffer device_id punches store).1 = some rec ∧
        rec.earliest_punch = some p.timestamp ∧ rec.latest_punch = none ∧
        rec.punch_count = 1 ∧ rec.is_incomplete = true) ∧
    (∀ (user_id : Nat) (attendance_date : Int) (work_start work_end : Nat)
        (overnight : Bool) (buffer device_id : Nat) (punches : List Punch)
        (store : List OutlierRow),
      1 < (punches.filter (fun q => is_punch_in_shift_window q.timestamp attendance_date
          work_start work_end overnight buffer)).length →
      ∃ (rec : ProcessedAttendance) (q : Punch),
        (process_attendance_for_date user_id attendance_date work_start work_end
            overnight buffer device_id punches store).1 = some rec ∧
        (punches.filter (fun q' => is_punch_in_shift_window q'.timestamp attendance_date
            work_start work_end overnight buffer)).getLast? = some q ∧
        rec.latest_punch = some q.timestamp) := by
  constructor
  · intro u d ws we ov b dev punches store p h
    cases punches with
    | nil => simp at h
    | cons a l =>
      simp only [process_attendance_for_date, List.isEmpty_cons, Bool.false_eq_true,
        if_false, h]
      simp [classify_attendance]
  · intro u d ws we ov b dev punches store h
    cases punches with
    | nil => simp at h
    | cons a l =>
      cases hq : ((a :: l).filter (fun q => is_punch_in_shift_window q.timestamp d
          ws we ov b)).getLast? with
      | none =>
        rw [List.getLast?_eq_none_iff] at hq
        rw [hq] at h
        simp at h
      | some q =>
        have hne : ((a :: l).filter (fun q => is_punch_in_shift_window q.timestamp d
            ws we ov b)).isEmpty = false := by
          cases hh : (a :: l).filter (fun q => is_punch_in_shift_window q.timestamp d
              ws we ov b) with
          | nil => rw [hh] at h; simp at h
          | cons x xs => rfl
        simp [process_attendance_for_date, hne, hq, h]

/-- Witness for C5: a lone in-window `08:00` punch on the `08:00-18:00` day
shift aggregates to `(earliest, none, 1)` and is incomplete; with a second
in-window punch at `10:00` the latest punch is the last in-window one. -/
theorem single_in_window_punch_aggregate_witness :
    (∃ rec : ProcessedAttendance,
      (process_attendance_for_date 7 0 28800 64800 false 2 1 [⟨1, 28800⟩] []).1 =
          some rec ∧
      rec.earliest_punch = some (Punch.mk 1 28800).timestamp ∧
      rec.latest_punch = none ∧ rec.punch_count = 1 ∧ rec.is_incomplete = true) ∧
    (∃ (rec : ProcessedAttendance) (q : Punch),
      (process_attendance_for_date 7 0 28800 64800 false 2 1
          [⟨1, 28800⟩, ⟨1, 36000⟩] []).1 = some rec ∧
      (([⟨1, 28800⟩, ⟨1, 36000⟩] : List Punch).filter
          (fun q' => is_punch_in_shift_window q'.timestamp 0 28800 64800 false 2)).getLast?
        = some q ∧
      rec.latest_punch = some q.timestamp) :=
  ⟨single_in_window_punch_aggregate.1 7 0 28800 64800 false 2 1 [⟨1, 28800⟩] []
      ⟨1, 28800⟩ (by decide),
   single_in_window_punch_aggregate.2 7 0 28800 64800 false 2 1
      [⟨1, 28800⟩, ⟨1, 36000⟩] [] (by decide)⟩

/-- C6 counterexample -- for the overnight configuration
`work_start = 20:00`, `work_end = 13:00` the source takes the day-shift
branch (the morning rule is guarded by `work_end.hour < 12`): with the
latest punch at local `12:30` the classifier reports an early departure even
though the punch's local hour is not below 12, refuting the claim's
"for overnight shifts, exactly when the latest punch's local hour is less
than 12 and its time-of-day is strictly before `work_end`". -/
theorem early_departure_overnight_counterexample :
    (classify_attendance (some 72000) (some 131400) 72000 46800 true).is_early_departure
        = true ∧
      ¬ (hourOf (timeOfDay 131400) < 12 ∧ timeOfDay 131400 < 46800) := by
  decide

/-- C6 amended -- for every complete shift, `is_late_arrival` holds exactly
when the local time-of-day of the earliest punch is strictly after
`work_start`; `is_early_departure`, for overnight shifts whose `work_end`
lies in the morning (`hour < 12`), holds exactly when the latest punch's
local hour is below 12 and its time-of-day is strictly before `work_end`,
and in every other case (day shifts, and overnight shifts whose `work_end`
hour is 12 or later) exactly when the latest punch's local time-of-day is
strictly before `work_end`. -/
theorem classify_flags_characterization (ci co : Int) (work_start work_end : Nat)
    (overnight : Bool) :
    ((classify_attendance (some ci) (some co) work_start work_end overnight).is_late_arrival
        = true ↔ work_start < timeOfDay ci) ∧
    (overnight = true ∧ hourOf work_end < 12 →
      ((classify_attendance (some ci) (some co) work_start work_end overnight).is_early_departure
          = true ↔ hourOf (timeOfDay co) < 12 ∧ timeOfDay co < work_end)) ∧
    (¬ (overnight = true ∧ hourOf work_end < 12) →
      ((classify_attendance (some ci) (some co) work_start work_end overnight).is_early_departure
          = true ↔ timeOfDay co < work_end)) := by
  refine ⟨by simp [classify_attendance], ?_, ?_⟩
  · rintro ⟨hov, hwe⟩
    subst hov
    simp [classify_attendance, hwe]
  · intro h
    cases overnight with
    | false => simp [classify_attendance]
    | true =>
      simp only [true_and] at h
      simp [classify_attendance, h]

/-- Witness for the amended C6 at the spec's own example: earliest punch at
local `20:45` for `work_start = 20:00` is a late arrival, and for the
overnight `work_end = 05:00` a latest punch at local `04:30` the next day is
an early departure. -/
theorem classify_flags_characterization_witness :
    ((classify_attendance (some 74700) (some 102600) 72000 18000 true).is_late_arrival
        = true ↔ 72000 < timeOfDay 74700) ∧
    ((classify_attendance (some 74700) (some 102600) 72000 18000 true).is_early_departure
        = true ↔ hourOf (timeOfDay 102600) < 12 ∧ timeOfDay 102600 < 18000) :=
  ⟨(classify_flags_characterization 74700 102600 72000 18000 true).1,
   (classify_flags_characterization 74700 102600 72000 18000 true).2.1 ⟨rfl, by decide⟩⟩

/-- C7 counterexample -- a shift key with zero candidate punches produces no
`ProcessedAttendance` record at all: the source returns `None` at line 314
before the incomplete-record path is reached. -/
theorem zero_candidate_punches_counterexample :
    (process_attendance_for_date 7 0 28800 64800 false 2 1 [] []).1 = none := rfl

/-- C7 amended -- a shift key with at least one candidate punch but none of
them in-window yields a `ProcessedAttendance` record with
`is_incomplete = true`, zero punches and the explanatory
no-punches-in-window note, as a normal outcome; with zero candidate punches
the engine returns no record (and no error) instead. -/
theorem no_in_window_punches_record :
    (∀ (user_id : Nat) (attendance_date : Int) (work_start work_end : Nat)
        (overnight : Bool) (buffer device_id : Nat) (punches : List Punch)
        (store : List OutlierRow),
      punches ≠ [] →
      punches.filter (fun q => is_punch_in_shift_window q.timestamp attendance_date
          work_start work_end overnight buffer) = [] →
      ∃ rec : ProcessedAttendance,
        (process_attendance_for_date user_id attendance_date work_start work_end
            overnight buffer device_id punches store).1 = some rec ∧
        rec.is_incomplete = true ∧ rec.punch_count = 0 ∧
        rec.earliest_punch = none ∧ rec.latest_punch = none ∧
        rec.notes = [.noPunchesInWindow punches.length]) ∧
    (∀ (user_id : Nat) (attendance_date : Int) (work_start work_end : Nat)
        (overnight : Bool) (buffer device_id : Nat) (store : List OutlierRow),
      (process_attendance_for_date user_id attendance_date work_start work_end
          overnight buffer device_id [] store).1 = none) := by
  constructor
  · intro u d ws we ov b dev punches store hne h
    cases punches with
    | nil => exact absurd rfl hne
    | cons a l =>
      have hout := filter_not_of_filter_nil
        (fun q : Punch => is_punch_in_shift_window q.timestamp d ws we ov b) (a :: l) h
      simp only [process_attendance_for_date, List.isEmpty_cons, Bool.false_eq_true,
        if_false, h, hout]
      simp
  · intro u d ws we ov b dev store
    rfl

/-- Witness for the amended C7: a lone `03:00` punch on the `08:00-18:00`
day shift is out-of-window, and the resulting record is the incomplete
no-punches-in-window one. -/
theorem no_in_window_punches_record_witness :
    ∃ rec : ProcessedAttendance,
      (process_attendance_for_date 7 0 28800 64800 false 2 1 [⟨1, 10800⟩] []).1 =
          some rec ∧
      rec.is_incomplete = true ∧ rec.punch_count = 0 ∧
      rec.earliest_punch = none ∧ rec.latest_punch = none ∧
      rec.notes = [.noPunchesInWindow ([⟨1, 10800⟩] : List Punch).length] :=
  no_in_window_punches_record.1 7 0 28800 64800 false 2 1 [⟨1, 10800⟩] []
    (by decide) (by decide)

/-- C8 -- under an overnight configuration the shift-key discovery assigns a
punch to the previous calendar date's shift exactly when its device-local
time-of-day is strictly before `work_start`, to its own calendar date
exactly when it is at or after `work_start`, and every punch is assigned
exactly one shift date. -/
theorem overnight_shift_key_assignment :
    ∀ (punch_date : Int) (punch_time work_start : Nat),
      (punch_time < work_start ↔
        shift_date_for_punch punch_date punch_time work_start = punch_date - 1) ∧
      (work_start ≤ punch_time ↔
        shift_date_for_punch punch_date punch_time work_start = punch_date) ∧
      ∃! dt : Int, shift_date_for_punch punch_date punch_time work_start = dt := by
  intro pd pt ws
  refine ⟨?_, ?_, shift_date_for_punch pd pt ws, rfl, fun y hy => hy.symm⟩
  · unfold shift_date_for_punch
    by_cases hcmp : ws ≤ pt
    · simp [hcmp]
      omega
    · simp [hcmp]
      omega
  · unfold shift_date_for_punch
    by_cases hcmp : ws ≤ pt
    · simp [hcmp]
    · simp [hcmp]

/-- Witness for C8: a `05:00` punch with `work_start = 20:00` lands on the
previous date's shift; a `20:00` punch lands on its own date. -/
theorem overnight_shift_key_assignment_witness :
    shift_date_for_punch 5 18000 72000 = 5 - 1 ∧
    shift_date_for_punch 5 72000 72000 = 5 :=
  ⟨(overnight_shift_key_assignment 5 18000 72000).1.mp (by decide),
   (overnight_shift_key_assignment 5 72000 72000).2.1.mp (by decide)⟩

/-- C9 -- the batch coordinator is a total fold over the units of work: it
returns the statistics `{total_records, processed, failed, outliers}`
exactly counting the units, and a failing unit only increments `failed`
while every unit after it is still processed (the run never aborts). -/
theorem batch_run_isolates_failures :
    (∀ units : List UnitOutcome,
      process_all_unprocessed_attendance units =
        ⟨countReturned units, countProcessed units, countFailed units,
         countOutliers units⟩) ∧
    (∀ pre post : List UnitOutcome,
      process_all_unprocessed_attendance (pre ++ UnitOutcome.err :: post) =
        { process_all_unprocessed_attendance (pre ++ post) with
          failed := (process_all_unprocessed_attendance (pre ++ post)).failed + 1 }) := by
  refine ⟨process_all_eq_counts, fun pre post => ?_⟩
  rw [process_all_eq_counts, process_all_eq_counts, countReturned_append,
    countProcessed_append, countFailed_append, countOutliers_append,
    countReturned_append, countProcessed_append, countFailed_append,
    countOutliers_append]
  simp [countReturned, countProcessed, countFailed, countOutliers,
    BatchResults.mk.injEq]
  omega

/-- C10 -- the classifier's `is_outlier` component is hard-coded `False`
for every input, and every `ProcessedAttendance` row written by
`process_attendance_for_date` carries `is_outlier = False`. -/
theorem is_outlier_always_false :
    (∀ (clock_in clock_out : Option Int) (work_start work_end : Nat)
        (overnight : Bool),
      (classify_attendance clock_in clock_out work_start work_end
          overnight).is_outlier = false) ∧
    (∀ (user_id : Nat) (attendance_date : Int) (work_start work_end : Nat)
        (overnight : Bool) (buffer device_id : Nat) (punches : List Punch)
        (store : List OutlierRow) (rec : ProcessedAttendance),
      (process_attendance_for_date user_id attendance_date work_start work_end
          overnight buffer device_id punches store).1 = some rec →
      rec.is_outlier = false) := by
  constructor
  · intro ci co ws we ov
    cases ci <;> cases co <;> rfl
  · intro u d ws we ov b dev punches store rec h
    cases punches with
    | nil => simp [process_attendance_for_date] at h
    | cons a l =>
      simp only [process_attendance_for_date, List.isEmpty_cons, Bool.false_eq_true,
        if_false] at h
      split at h <;> (simp only [Option.some.injEq] at h; rw [← h])

/-- Witness for C10: the record written for a lone `08:00` punch on the
`08:00-18:00` day shift carries `is_outlier = false`. -/
theorem is_outlier_always_false_witness :
    (process_attendance_for_date 7 0 28800 64800 false 2 1 [⟨1, 28800⟩] []).1 =
        some ⟨1, 7, 0, 28800, 64800, some 28800, none, 1, true, false, false,
          [.missingClockOut], 0, some 28800, none, false⟩ ∧
    (⟨1, 7, 0, 28800, 64800, some 28800, none, 1, true, false, false,
        [.missingClockOut], 0, some 28800, none, false⟩ : ProcessedAttendance).is_outlier
      = false :=
  ⟨by decide,
   is_outlier_always_false.2 7 0 28800 64800 false 2 1 [⟨1, 28800⟩] [] _ (by decide)⟩
